import Mathlib

/-!
Shallow embedding of `src/Generator/classification/helpers.py` from the
ReLAttack repository: a few-shot classification dataset loader and the
configuration plumbing that selects verbalizers and a prompt template,
together with the thin wrappers that build datasets and a reward object.

Python-level effects are made explicit:
* an `Env` carries the module-level name `seed_dict` (which is in fact
  undefined in the module, hence the `Option`) and the filesystem as a
  partial map from paths to parsed data frames;
* fallible Python code becomes `Except PyErr`.
-/

/-- Python exceptions that the embedded code can raise. -/
inductive PyErr where
  | assertionError
  | nameError (name : String)
  | keyError
  | fileNotFoundError (path : String)
  | attributeError (name : String)
  | indexError
deriving DecidableEq

/-- A parsed TSV as pandas exposes it to this code: the three columns the
loader may touch, each present or absent. -/
structure DataFrame where
  text : Option (List String)
  sentence : Option (List String)
  label : Option (List String)
deriving DecidableEq

/-- The ambient Python state the loader interacts with: the module-level
name `seed_dict` (undefined in `helpers.py`, hence `none` for the module as
shipped) and the filesystem seen through `pd.read_csv`. -/
structure Env where
  seedDict : Option (Option Int → Option String)
  fs : String → Option DataFrame

/-- The environment of `helpers.py` as shipped: `seed_dict` is not defined
anywhere in the module, whatever the filesystem holds. -/
def shippedEnv (fs : String → Option DataFrame) : Env :=
  ⟨none, fs⟩

/-- Does the character list `s` start with `pat`? -/
def charsStartWith : List Char → List Char → Bool
  | _, [] => true
  | [], _ :: _ => false
  | c :: cs, d :: ds => c == d && charsStartWith cs ds

/-- Does the character list `s` contain `pat` as a contiguous run? -/
def charsHaveSub : List Char → List Char → Bool
  | [], pat => charsStartWith [] pat
  | c :: cs, pat => charsStartWith (c :: cs) pat || charsHaveSub cs pat

/-- Python's `pat in s` on strings: substring containment. -/
def strContains (s pat : String) : Bool :=
  charsHaveSub s.data pat.data

/-- Python's `s.startswith(pat)` on strings. -/
def strStartsWith (s pat : String) : Bool :=
  charsStartWith s.data pat.data

/-- Python's `s.endswith(pat)` on strings. -/
def strEndsWith (s pat : String) : Bool :=
  charsStartWith s.data.reverse pat.data.reverse

/-- The two-argument POSIX case of `os.path.join` used by the loader. -/
def osPathJoin (a b : String) : String :=
  if strStartsWith b "/" then b
  else if a = "" then b
  else if strEndsWith a "/" then a ++ b
  else a ++ "/" ++ b

/-- Python's `xs[idx]` on a list of strings, with negative indices. -/
def pyIndex (xs : List String) (idx : Int) : Except PyErr String :=
  if 0 ≤ idx ∧ idx < (xs.length : Int) then
    .ok (xs.getD idx.toNat "")
  else if -(xs.length : Int) ≤ idx ∧ idx < 0 then
    .ok (xs.getD (xs.length - (-idx).toNat) "")
  else
    .error .indexError

/-- The data `PromptedClassificationDataset` stores: the pair of aligned
lists kept after the constructor's `assert`. -/
structure PromptedClassificationDataset where
  source_texts : List String
  class_labels : List String
deriving DecidableEq

/-- The constructor of `PromptedClassificationDataset`, whose `assert`
fails unless the two lists have the same length. -/
def PromptedClassificationDataset.make (source_texts class_labels : List String) :
    Except PyErr PromptedClassificationDataset :=
  if source_texts.length = class_labels.length then
    .ok ⟨source_texts, class_labels⟩
  else
    .error .assertionError

/-- Python `__len__`: the length of the stored `source_texts`. -/
def PromptedClassificationDataset.len (d : PromptedClassificationDataset) : Nat :=
  d.source_texts.length

/-- The dict `__getitem__` returns: one text paired with one label. -/
structure DatasetItem where
  source_texts : String
  class_labels : String
deriving DecidableEq

/-- Python `__getitem__`: index both stored lists at `idx`. -/
def PromptedClassificationDataset.getitem (d : PromptedClassificationDataset)
    (idx : Int) : Except PyErr DatasetItem :=
  match pyIndex d.source_texts idx, pyIndex d.class_labels idx with
  | .ok s, .ok c => .ok ⟨s, c⟩
  | .error e, _ => .error e
  | .ok _, .error e => .error e

/-- Embedding of `get_dataset_verbalizers`.  When neither branch binds
`verbalizers` the Python function raises an unbound-name error at `return`. -/
def get_dataset_verbalizers (dataset task_lm : String) :
    Except PyErr (List String) :=
  if dataset ∈ ["CoLA", "yelp", "agnews", "ReCoRD", "QuAC"] then
    let v0 := ["Ġterrible", "Ġgreat"]
    let v1 := if task_lm = "bert-large-cased" then ["terrible", "great"] else v0
    let v2 := if task_lm ∈ ["llama-2-7b", "llama-2-13b"] then
        ["▁terrible", "▁great"] else v1
    let v3 := if task_lm ∈ ["gpt4", "gpt3.5"] then
        ["Ġterrible", "Ġgreat"] else v2
    .ok v3
  else if dataset = "agnews" then
    .ok ["World", "Sports", "Business", "Tech"]
  else
    .error (.nameError "verbalizers")

/-- The tuple `load_few_shot_classification_dataset` returns. -/
structure LoadResult where
  source_texts : List String
  class_labels : List String
  num_classes : Nat
  verbalizers : List String
  template : Option String
deriving DecidableEq

/-- Embedding of `load_few_shot_classification_dataset`. -/
def load_few_shot_classification_dataset (env : Env) (dataset : String)
    (dataset_seed : Option Int) (split : String) (base_path : String)
    (num_shots : Int) (task_lm : String) : Except PyErr LoadResult :=
  if dataset ∈ ["CoLA", "yelp", "agnews", "ReCoRD", "QuAC"] then
    if split ∈ ["train", "dev", "test"] then
      if num_shots ∈ ([16] : List Int) then
        match env.seedDict with
        | none => .error (.nameError "seed_dict")
        | some sd =>
          match sd dataset_seed with
          | none => .error .keyError
          | some seed_path =>
            let filepath := toString num_shots ++ "-shot/" ++ dataset ++ "/" ++
              seed_path ++ "/" ++ split ++ ".tsv"
            let full_filepath := osPathJoin base_path filepath
            match env.fs full_filepath with
            | none => .error (.fileNotFoundError full_filepath)
            | some df =>
              let sourceCol : Except PyErr (List String) :=
                match df.text with
                | some ts => .ok ts
                | none =>
                  match df.sentence with
                  | some ss => .ok ss
                  | none => .error (.attributeError "sentence")
              match sourceCol with
              | .error e => .error e
              | .ok source_texts =>
                match df.label with
                | none => .error (.attributeError "label")
                | some class_labels =>
                  match get_dataset_verbalizers dataset task_lm with
                  | .error e => .error e
                  | .ok verbalizers =>
                    let num_classes := verbalizers.length
                    let template : Option String :=
                      if dataset = "agnews" ∧ task_lm = "deberta-base" then
                        some "[MASK] {clean_prompt} {sentence}"
                      else if dataset = "agnews" ∧ strContains task_lm "gpt" = false then
                        some "<mask> {clean_prompt} {sentence}"
                      else none
                    .ok ⟨source_texts, class_labels, num_classes, verbalizers, template⟩
      else .error .assertionError
    else .error .assertionError
  else .error .assertionError

/-- The fields of `FewShotClassificationDatasetConfig` together with the
two further config attributes (`task_lm`) the wrapper reads. -/
structure FewShotConfig where
  dataset : String
  dataset_seed : Option Int
  base_path : String
  num_shots : Int
  task_lm : String

/-- Embedding of `make_few_shot_classification_dataset`: load the three
splits in order, wrap each in a `PromptedClassificationDataset`, and return
the datasets together with the last iteration's configuration values. -/
def make_few_shot_classification_dataset (env : Env) (config : FewShotConfig) :
    Except PyErr (PromptedClassificationDataset × PromptedClassificationDataset ×
      PromptedClassificationDataset × Nat × List String × Option String) :=
  match load_few_shot_classification_dataset env config.dataset config.dataset_seed
      "train" config.base_path config.num_shots config.task_lm with
  | .error e => .error e
  | .ok rTrain =>
    match PromptedClassificationDataset.make rTrain.source_texts rTrain.class_labels with
    | .error e => .error e
    | .ok dTrain =>
      match load_few_shot_classification_dataset env config.dataset config.dataset_seed
          "dev" config.base_path config.num_shots config.task_lm with
      | .error e => .error e
      | .ok rDev =>
        match PromptedClassificationDataset.make rDev.source_texts rDev.class_labels with
        | .error e => .error e
        | .ok dDev =>
          match load_few_shot_classification_dataset env config.dataset config.dataset_seed
              "test" config.base_path config.num_shots config.task_lm with
          | .error e => .error e
          | .ok rTest =>
            match PromptedClassificationDataset.make rTest.source_texts rTest.class_labels with
            | .error e => .error e
            | .ok dTest =>
              .ok (dTrain, dDev, dTest, rTest.num_classes, rTest.verbalizers,
                rTest.template)

/-- The constructor arguments of `PromptedClassificationReward`, recorded
in the order they are passed; the reward computation itself lives outside
this excerpt. -/
structure PromptedClassificationReward where
  task_lm : String
  is_mask_lm : Option Bool
  compute_zscore : Bool
  incorrect_coeff : Float
  correct_coeff : Float
  num_classes : Nat
  verbalizers : List String
  template : Option String

/-- The config attributes `make_prompted_classification_reward` reads. -/
structure RewardConfig where
  task_lm : String
  is_mask_lm : Option Bool
  compute_zscore : Bool
  incorrect_coeff : Float
  correct_coeff : Float

/-- Embedding of `make_prompted_classification_reward`. -/
def make_prompted_classification_reward (num_classes : Nat)
    (verbalizers : List String) (template : Option String)
    (config : RewardConfig) : PromptedClassificationReward :=
  ⟨config.task_lm, config.is_mask_lm, config.compute_zscore,
   config.incorrect_coeff, config.correct_coeff,
   num_classes, verbalizers, template⟩

/-- A concrete data frame with `sentence` and `label` columns. -/
def sampleDF : DataFrame :=
  ⟨none, some ["a sentence"], some ["1"]⟩

/-- A concrete environment in which `seed_dict` is defined and every path
resolves to `sampleDF`; used to exercise successful loader runs. -/
def sampleEnv : Env :=
  ⟨some fun _ => some "seed0", fun _ => some sampleDF⟩

deriving instance DecidableEq for Except

/-- Characterization of `get_dataset_verbalizers` on the allowed datasets:
the result depends only on `task_lm`, through three cases. -/
theorem gdv_allowed (dataset task_lm : String)
    (hd : dataset ∈ ["CoLA", "yelp", "agnews", "ReCoRD", "QuAC"]) :
    get_dataset_verbalizers dataset task_lm =
      .ok (if task_lm = "bert-large-cased" then ["terrible", "great"]
        else if task_lm = "llama-2-7b" ∨ task_lm = "llama-2-13b" then
          ["▁terrible", "▁great"]
        else ["Ġterrible", "Ġgreat"]) := by
  unfold get_dataset_verbalizers
  rw [if_pos hd]
  by_cases h1 : task_lm = "bert-large-cased"
  · subst h1; decide
  by_cases h2 : task_lm = "llama-2-7b"
  · subst h2; decide
  by_cases h3 : task_lm = "llama-2-13b"
  · subst h3; decide
  by_cases h4 : task_lm = "gpt4"
  · subst h4; decide
  by_cases h5 : task_lm = "gpt3.5"
  · subst h5; decide
  have m2 : task_lm ∉ (["llama-2-7b", "llama-2-13b"] : List String) := by
    simp [h2, h3]
  have m3 : task_lm ∉ (["gpt4", "gpt3.5"] : List String) := by
    simp [h4, h5]
  simp [h1, h2, h3, m2, m3]

/-- Inversion of a successful loader run: the assertions must have
passed, `seed_dict` must be defined with an entry at the seed, the fixed
path must resolve to a data frame, and every component of the result is
determined as the code computes it. -/
theorem load_ok_inv {env : Env} {dataset : String} {dataset_seed : Option Int}
    {split base_path : String} {num_shots : Int} {task_lm : String}
    {r : LoadResult}
    (h : load_few_shot_classification_dataset env dataset dataset_seed split
      base_path num_shots task_lm = .ok r) :
    dataset ∈ ["CoLA", "yelp", "agnews", "ReCoRD", "QuAC"] ∧
    split ∈ ["train", "dev", "test"] ∧ num_shots = 16 ∧
    ∃ sd seed_path df,
      env.seedDict = some sd ∧ sd dataset_seed = some seed_path ∧
      env.fs (osPathJoin base_path (toString num_shots ++ "-shot/" ++ dataset ++
        "/" ++ seed_path ++ "/" ++ split ++ ".tsv")) = some df ∧
      df.label = some r.class_labels ∧
      ((∃ ts, df.text = some ts ∧ r.source_texts = ts) ∨
        (df.text = none ∧ df.sentence = some r.source_texts)) ∧
      get_dataset_verbalizers dataset task_lm = .ok r.verbalizers ∧
      r.num_classes = r.verbalizers.length ∧
      r.template = (if dataset = "agnews" ∧ task_lm = "deberta-base" then
          some "[MASK] {clean_prompt} {sentence}"
        else if dataset = "agnews" ∧ strContains task_lm "gpt" = false then
          some "<mask> {clean_prompt} {sentence}"
        else none) := by
  unfold load_few_shot_classification_dataset at h
  by_cases hd : dataset ∈ ["CoLA", "yelp", "agnews", "ReCoRD", "QuAC"]
  case neg => rw [if_neg hd] at h; exact Except.noConfusion h
  rw [if_pos hd] at h
  by_cases hs : split ∈ ["train", "dev", "test"]
  case neg => rw [if_neg hs] at h; exact Except.noConfusion h
  rw [if_pos hs] at h
  by_cases hn : num_shots ∈ ([16] : List Int)
  case neg => rw [if_neg hn] at h; exact Except.noConfusion h
  rw [if_pos hn] at h
  refine ⟨hd, hs, by simpa using hn, ?_⟩
  cases hsd : env.seedDict with
  | none => simp only [hsd] at h; exact Except.noConfusion h
  | some sd =>
  simp only [hsd] at h
  cases hseed : sd dataset_seed with
  | none => simp only [hseed] at h; exact Except.noConfusion h
  | some seed_path =>
  simp only [hseed] at h
  cases hdf : env.fs (osPathJoin base_path (toString num_shots ++ "-shot/" ++
      dataset ++ "/" ++ seed_path ++ "/" ++ split ++ ".tsv")) with
  | none => simp only [hdf] at h; exact Except.noConfusion h
  | some df =>
  simp only [hdf] at h
  refine ⟨sd, seed_path, df, rfl, hseed, hdf, ?_⟩
  cases htext : df.text with
  | some ts =>
    simp only [htext] at h
    cases hlab : df.label with
    | none => simp only [hlab] at h; exact Except.noConfusion h
    | some class_labels =>
    simp only [hlab] at h
    cases hverb : get_dataset_verbalizers dataset task_lm with
    | error e => simp only [hverb] at h; exact Except.noConfusion h
    | ok verbalizers =>
    simp only [hverb] at h
    injection h with h
    subst h
    exact ⟨rfl, .inl ⟨ts, rfl, rfl⟩, rfl, rfl, rfl⟩
  | none =>
  simp only [htext] at h
  cases hsent : df.sentence with
  | none => simp only [hsent] at h; exact Except.noConfusion h
  | some ss =>
  simp only [hsent] at h
  cases hlab : df.label with
  | none => simp only [hlab] at h; exact Except.noConfusion h
  | some class_labels =>
  simp only [hlab] at h
  cases hverb : get_dataset_verbalizers dataset task_lm with
  | error e => simp only [hverb] at h; exact Except.noConfusion h
  | ok verbalizers =>
  simp only [hverb] at h
  injection h with h
  subst h
  exact ⟨rfl, .inr ⟨rfl, rfl⟩, rfl, rfl, rfl⟩

/-- C1: for every allowed dataset in {CoLA, yelp, agnews, ReCoRD, QuAC} and
every `task_lm`, `get_dataset_verbalizers` returns output-label tokens
determined only by the model choice: `['terrible', 'great']` for
`bert-large-cased`, the `▁`-prefixed pair for the two llama-2 models, and
the `Ġ`-prefixed pair for every other model, including `gpt4` and
`gpt3.5`. -/
theorem C1_verbalizers_by_model (dataset task_lm : String)
    (hd : dataset ∈ ["CoLA", "yelp", "agnews", "ReCoRD", "QuAC"]) :
    get_dataset_verbalizers dataset task_lm =
      .ok (if task_lm = "bert-large-cased" then ["terrible", "great"]
        else if task_lm = "llama-2-7b" ∨ task_lm = "llama-2-13b" then
          ["▁terrible", "▁great"]
        else ["Ġterrible", "Ġgreat"]) ∧
    get_dataset_verbalizers dataset "gpt4" = .ok ["Ġterrible", "Ġgreat"] ∧
    get_dataset_verbalizers dataset "gpt3.5" = .ok ["Ġterrible", "Ġgreat"] := by
  refine ⟨gdv_allowed dataset task_lm hd, ?_, ?_⟩
  · rw [gdv_allowed dataset "gpt4" hd]; rfl
  · rw [gdv_allowed dataset "gpt3.5" hd]; rfl

/-- Witness for C1 at the concrete input `("yelp", "bert-large-cased")`. -/
theorem C1_verbalizers_by_model_witness :
    get_dataset_verbalizers "yelp" "bert-large-cased" =
      .ok ["terrible", "great"] := by
  have h := (C1_verbalizers_by_model "yelp" "bert-large-cased" (by decide)).1
  simpa using h

/-- C3: on every allowed dataset the verbalizer list has exactly two
elements, every successful loader run reports `num_classes = 2`, and the
four-class agnews list is never produced, the first branch of the
conditional having captured `'agnews'`. -/
theorem C3_two_classes (dataset task_lm : String)
    (hd : dataset ∈ ["CoLA", "yelp", "agnews", "ReCoRD", "QuAC"]) :
    (∃ v, get_dataset_verbalizers dataset task_lm = .ok v ∧ v.length = 2) ∧
    (∀ env dataset_seed split base_path num_shots r,
      load_few_shot_classification_dataset env dataset dataset_seed split
        base_path num_shots task_lm = .ok r → r.num_classes = 2) ∧
    ∀ t, get_dataset_verbalizers "agnews" t ≠
      .ok ["World", "Sports", "Business", "Tech"] := by
  refine ⟨?_, ?_, ?_⟩
  · rw [gdv_allowed dataset task_lm hd]
    refine ⟨_, rfl, ?_⟩
    split
    · rfl
    split
    · rfl
    · rfl
  · intro env dataset_seed split base_path num_shots r h
    obtain ⟨-, -, -, sd, seed_path, df, -, -, -, -, -, hverb, hnum, -⟩ :=
      load_ok_inv h
    rw [gdv_allowed dataset task_lm hd] at hverb
    injection hverb with hverb
    rw [hnum, ← hverb]
    split
    · rfl
    split
    · rfl
    · rfl
  · intro t hcontra
    rw [gdv_allowed "agnews" t (by decide)] at hcontra
    injection hcontra with hcontra
    split at hcontra
    · exact absurd hcontra (by decide)
    split at hcontra
    · exact absurd hcontra (by decide)
    · exact absurd hcontra (by decide)

/-- Witness for C3: a concrete successful loader run on `CoLA` with
`gpt2` reports two classes. -/
theorem C3_two_classes_witness :
    LoadResult.num_classes
      ⟨["a sentence"], ["1"], 2, ["Ġterrible", "Ġgreat"], none⟩ = 2 :=
  (C3_two_classes "CoLA" "gpt2" (by decide)).2.1 sampleEnv none "train"
    "./data" 16 _ (by rfl)

/-- Under the module as shipped (no `seed_dict` defined), a loader call
whose assertions pass fails with the unbound-name error, independently of
the filesystem. -/
theorem load_shipped_eq (fs : String → Option DataFrame) (dataset : String)
    (dataset_seed : Option Int) (split base_path : String) (num_shots : Int)
    (task_lm : String)
    (hd : dataset ∈ ["CoLA", "yelp", "agnews", "ReCoRD", "QuAC"])
    (hs : split ∈ ["train", "dev", "test"]) (hn : num_shots = 16) :
    load_few_shot_classification_dataset (shippedEnv fs) dataset dataset_seed
      split base_path num_shots task_lm = .error (.nameError "seed_dict") := by
  unfold load_few_shot_classification_dataset
  rw [if_pos hd, if_pos hs, if_pos (by simp [hn])]
  rfl

/-- C2: with `seed_dict` undefined, every loader call that passes the
assertions raises the name error without consulting the filesystem (the
result is the same for every filesystem), and so does the wrapper
`make_few_shot_classification_dataset`; neither can return normally. -/
theorem C2_seed_dict_undefined (fs : String → Option DataFrame)
    (config : FewShotConfig) (split : String)
    (hd : config.dataset ∈ ["CoLA", "yelp", "agnews", "ReCoRD", "QuAC"])
    (hs : split ∈ ["train", "dev", "test"]) (hn : config.num_shots = 16) :
    load_few_shot_classification_dataset (shippedEnv fs) config.dataset
        config.dataset_seed split config.base_path config.num_shots
        config.task_lm = .error (.nameError "seed_dict") ∧
    make_few_shot_classification_dataset (shippedEnv fs) config =
      .error (.nameError "seed_dict") := by
  constructor
  · exact load_shipped_eq fs config.dataset config.dataset_seed split
      config.base_path config.num_shots config.task_lm hd hs hn
  · unfold make_few_shot_classification_dataset
    rw [load_shipped_eq fs config.dataset config.dataset_seed "train"
      config.base_path config.num_shots config.task_lm hd (by decide) hn]

/-- Witness for C2 at a concrete configuration and filesystem. -/
theorem C2_seed_dict_undefined_witness :
    make_few_shot_classification_dataset (shippedEnv fun _ => some sampleDF)
      ⟨"CoLA", none, "./data", 16, "gpt2"⟩ = .error (.nameError "seed_dict") :=
  (C2_seed_dict_undefined (fun _ => some sampleDF)
    ⟨"CoLA", none, "./data", 16, "gpt2"⟩ "train" (by decide) (by decide) rfl).2

/-- C5: the loader fails with the assertion error, for every environment
and hence before any file access, exactly when `dataset`, `split` or
`num_shots` is outside its accepted set; on accepted values the assertion
error never occurs. -/
theorem C5_input_validation (env : Env) (dataset : String)
    (dataset_seed : Option Int) (split base_path : String) (num_shots : Int)
    (task_lm : String) :
    (¬(dataset ∈ ["CoLA", "yelp", "agnews", "ReCoRD", "QuAC"] ∧
        split ∈ ["train", "dev", "test"] ∧ num_shots = 16) →
      load_few_shot_classification_dataset env dataset dataset_seed split
        base_path num_shots task_lm = .error .assertionError) ∧
    ((dataset ∈ ["CoLA", "yelp", "agnews", "ReCoRD", "QuAC"] ∧
        split ∈ ["train", "dev", "test"] ∧ num_shots = 16) →
      load_few_shot_classification_dataset env dataset dataset_seed split
        base_path num_shots task_lm ≠ .error .assertionError) := by
  constructor
  · intro hbad
    unfold load_few_shot_classification_dataset
    by_cases hd : dataset ∈ ["CoLA", "yelp", "agnews", "ReCoRD", "QuAC"]
    case neg => rw [if_neg hd]
    rw [if_pos hd]
    by_cases hs : split ∈ ["train", "dev", "test"]
    case neg => rw [if_neg hs]
    rw [if_pos hs]
    by_cases hn : num_shots ∈ ([16] : List Int)
    case pos => exact absurd ⟨hd, hs, by simpa using hn⟩ hbad
    rw [if_neg hn]
  · rintro ⟨hd, hs, hn⟩ hcontra
    unfold load_few_shot_classification_dataset at hcontra
    rw [if_pos hd, if_pos hs, if_pos (by simp [hn])] at hcontra
    cases hsd : env.seedDict with
    | none =>
      simp only [hsd] at hcontra
      injection hcontra with h
      exact PyErr.noConfusion h
    | some sd =>
    simp only [hsd] at hcontra
    cases hseed : sd dataset_seed with
    | none =>
      simp only [hseed] at hcontra
      injection hcontra with h
      exact PyErr.noConfusion h
    | some seed_path =>
    simp only [hseed] at hcontra
    cases hdf : env.fs (osPathJoin base_path (toString num_shots ++ "-shot/" ++
        dataset ++ "/" ++ seed_path ++ "/" ++ split ++ ".tsv")) with
    | none =>
      simp only [hdf] at hcontra
      injection hcontra with h
      exact PyErr.noConfusion h
    | some df =>
    simp only [hdf] at hcontra
    cases htext : df.text with
    | some ts =>
      simp only [htext] at hcontra
      cases hlab : df.label with
      | none =>
        simp only [hlab] at hcontra
        injection hcontra with h
        exact PyErr.noConfusion h
      | some cl =>
        simp only [hlab, gdv_allowed dataset task_lm hd] at hcontra
        exact Except.noConfusion hcontra
    | none =>
    simp only [htext] at hcontra
    cases hsent : df.sentence with
    | none =>
      simp only [hsent] at hcontra
      injection hcontra with h
      exact PyErr.noConfusion h
    | some ss =>
    simp only [hsent] at hcontra
    cases hlab : df.label with
    | none =>
      simp only [hlab] at hcontra
      injection hcontra with h
      exact PyErr.noConfusion h
    | some cl =>
    simp only [hlab, gdv_allowed dataset task_lm hd] at hcontra
    exact Except.noConfusion hcontra

/-- Witness for C5: a dataset outside the accepted set is rejected by the
assertion at a concrete input. -/
theorem C5_input_validation_witness :
    load_few_shot_classification_dataset sampleEnv "SST-2" none "train"
      "./data" 16 "gpt2" = .error .assertionError :=
  (C5_input_validation sampleEnv "SST-2" none "train" "./data" 16
    "gpt2").1 (by decide)

/-- C4: on every successful loader run the template is the deberta
masked form for agnews with `deberta-base`, the roberta-style masked form
for agnews with any other model whose name avoids the substring `gpt`,
and `None` in every other case. -/
theorem C4_template_selection {env : Env} {dataset : String}
    {dataset_seed : Option Int} {split base_path : String} {num_shots : Int}
    {task_lm : String} {r : LoadResult}
    (h : load_few_shot_classification_dataset env dataset dataset_seed split
      base_path num_shots task_lm = .ok r) :
    (dataset = "agnews" ∧ task_lm = "deberta-base" →
      r.template = some "[MASK] {clean_prompt} {sentence}") ∧
    (dataset = "agnews" ∧ task_lm ≠ "deberta-base" ∧
        strContains task_lm "gpt" = false →
      r.template = some "<mask> {clean_prompt} {sentence}") ∧
    (dataset ≠ "agnews" ∨ strContains task_lm "gpt" = true →
      r.template = none) := by
  obtain ⟨-, -, -, sd, seed_path, df, -, -, -, -, -, -, -, htemp⟩ :=
    load_ok_inv h
  refine ⟨?_, ?_, ?_⟩
  · intro hcase
    rw [htemp, if_pos hcase]
  · rintro ⟨ha, hne, hgpt⟩
    rw [htemp, if_neg (fun hb => hne hb.2), if_pos ⟨ha, hgpt⟩]
  · intro hcase
    rcases hcase with hne | hgpt
    · rw [htemp, if_neg (fun hb => hne hb.1), if_neg (fun hb => hne hb.1)]
    · rw [htemp, if_neg, if_neg]
      · rintro ⟨-, hc⟩
        rw [hgpt] at hc
        exact Bool.noConfusion hc
      · rintro ⟨-, hb⟩
        rw [hb] at hgpt
        exact absurd hgpt (by decide)

/-- Witness for C4: the concrete agnews run with a gpt model yields no
template. -/
theorem C4_template_selection_witness :
    LoadResult.template
      ⟨["a sentence"], ["1"], 2, ["Ġterrible", "Ġgreat"], none⟩ = none := by
  have h := (@C4_template_selection sampleEnv "agnews" none "train" "./data"
    16 "gpt2" ⟨["a sentence"], ["1"], 2, ["Ġterrible", "Ġgreat"], none⟩
    (by rfl)).2.2 (Or.inr (by decide))
  exact h

/-- C6: with `seed_dict` holding `seed_path` at the given seed, the one
file the loader consults is `base_path` joined with
`{num_shots}-shot/{dataset}/{seed_path}/{split}.tsv`: a missing file at
exactly that path is reported, and any two filesystems agreeing on that
single path make the loader behave identically. -/
theorem C6_reads_exact_path (sd : Option Int → Option String)
    (fs : String → Option DataFrame) (dataset : String)
    (dataset_seed : Option Int) (split base_path : String) (num_shots : Int)
    (task_lm seed_path : String)
    (hd : dataset ∈ ["CoLA", "yelp", "agnews", "ReCoRD", "QuAC"])
    (hs : split ∈ ["train", "dev", "test"]) (hn : num_shots = 16)
    (hseed : sd dataset_seed = some seed_path) :
    (fs (osPathJoin base_path (toString num_shots ++ "-shot/" ++ dataset ++
        "/" ++ seed_path ++ "/" ++ split ++ ".tsv")) = none →
      load_few_shot_classification_dataset ⟨some sd, fs⟩ dataset dataset_seed
          split base_path num_shots task_lm =
        .error (.fileNotFoundError (osPathJoin base_path
          (toString num_shots ++ "-shot/" ++ dataset ++ "/" ++ seed_path ++
            "/" ++ split ++ ".tsv")))) ∧
    ∀ fs' : String → Option DataFrame,
      fs' (osPathJoin base_path (toString num_shots ++ "-shot/" ++ dataset ++
        "/" ++ seed_path ++ "/" ++ split ++ ".tsv")) =
      fs (osPathJoin base_path (toString num_shots ++ "-shot/" ++ dataset ++
        "/" ++ seed_path ++ "/" ++ split ++ ".tsv")) →
      load_few_shot_classification_dataset ⟨some sd, fs'⟩ dataset dataset_seed
        split base_path num_shots task_lm =
      load_few_shot_classification_dataset ⟨some sd, fs⟩ dataset dataset_seed
        split base_path num_shots task_lm := by
  constructor
  · intro hnone
    unfold load_few_shot_classification_dataset
    rw [if_pos hd, if_pos hs, if_pos (by simp [hn])]
    simp only [hseed, hnone]
  · intro fs' hagree
    unfold load_few_shot_classification_dataset
    simp only [if_pos hd, if_pos hs, if_pos (show num_shots ∈ ([16] : List Int)
      by simp [hn]), hseed, hagree]

/-- Witness for C6: on an empty filesystem the loader reports the missing
file at the conventional path. -/
theorem C6_reads_exact_path_witness :
    load_few_shot_classification_dataset
        ⟨some fun _ => some "seed0", fun _ => none⟩ "CoLA" none "train"
        "./data" 16 "gpt2" =
      .error (.fileNotFoundError "./data/16-shot/CoLA/seed0/train.tsv") := by
  have h := (C6_reads_exact_path (fun _ => some "seed0") (fun _ => none)
    "CoLA" none "train" "./data" 16 "gpt2" "seed0" (by decide) (by decide)
    rfl rfl).1 rfl
  exact h.trans (by decide)

/-- C7: every successful loader run draws its columns from the data frame
found on the filesystem: `source_texts` is the `text` column when present
and the `sentence` column otherwise, and `class_labels` is always the
`label` column. -/
theorem C7_column_selection {env : Env} {dataset : String}
    {dataset_seed : Option Int} {split base_path : String} {num_shots : Int}
    {task_lm : String} {r : LoadResult}
    (h : load_few_shot_classification_dataset env dataset dataset_seed split
      base_path num_shots task_lm = .ok r) :
    ∃ p df, env.fs p = some df ∧ df.label = some r.class_labels ∧
      ((∃ ts, df.text = some ts ∧ r.source_texts = ts) ∨
        (df.text = none ∧ df.sentence = some r.source_texts)) := by
  obtain ⟨-, -, -, sd, seed_path, df, -, -, hdf, hlab, hsrc, -, -, -⟩ :=
    load_ok_inv h
  exact ⟨_, df, hdf, hlab, hsrc⟩

/-- Witness for C7: the concrete run on `sampleEnv` uses the `sentence`
column (no `text` column) and the `label` column. -/
theorem C7_column_selection_witness :
    ∃ p df, sampleEnv.fs p = some df ∧ df.label = some ["1"] ∧
      ((∃ ts, df.text = some ts ∧ ["a sentence"] = ts) ∨
        (df.text = none ∧ df.sentence = some ["a sentence"])) := by
  have h := @C7_column_selection sampleEnv "CoLA" none "train" "./data" 16
    "gpt2" ⟨["a sentence"], ["1"], 2, ["Ġterrible", "Ġgreat"], none⟩ (by rfl)
  exact h

/-- Two successful loader runs differing only in the split report the same
`num_classes`, `verbalizers` and `template`: these depend only on the
dataset and the model. -/
theorem load_components_of_split {env : Env} {dataset : String}
    {dataset_seed : Option Int} {s1 s2 base_path : String} {num_shots : Int}
    {task_lm : String} {r1 r2 : LoadResult}
    (h1 : load_few_shot_classification_dataset env dataset dataset_seed s1
      base_path num_shots task_lm = .ok r1)
    (h2 : load_few_shot_classification_dataset env dataset dataset_seed s2
      base_path num_shots task_lm = .ok r2) :
    r1.num_classes = r2.num_classes ∧ r1.verbalizers = r2.verbalizers ∧
      r1.template = r2.template := by
  obtain ⟨-, -, -, sd1, sp1, df1, -, -, -, -, -, hv1, hn1, ht1⟩ :=
    load_ok_inv h1
  obtain ⟨-, -, -, sd2, sp2, df2, -, -, -, -, -, hv2, hn2, ht2⟩ :=
    load_ok_inv h2
  rw [hv1] at hv2
  injection hv2 with hv
  exact ⟨by rw [hn1, hn2, hv], hv, ht1.trans ht2.symm⟩

/-- C8: when the three splits load successfully and wrap successfully, the
wrapper returns the three datasets in train, dev, test order followed by
`num_classes`, `verbalizers` and `template` of the last (test) iteration,
and those three values are identical for all three splits. -/
theorem C8_make_dataset_splits (env : Env) (config : FewShotConfig)
    (rTr rDe rTe : LoadResult) (dTr dDe dTe : PromptedClassificationDataset)
    (hTr : load_few_shot_classification_dataset env config.dataset
      config.dataset_seed "train" config.base_path config.num_shots
      config.task_lm = .ok rTr)
    (hDe : load_few_shot_classification_dataset env config.dataset
      config.dataset_seed "dev" config.base_path config.num_shots
      config.task_lm = .ok rDe)
    (hTe : load_few_shot_classification_dataset env config.dataset
      config.dataset_seed "test" config.base_path config.num_shots
      config.task_lm = .ok rTe)
    (mTr : PromptedClassificationDataset.make rTr.source_texts
      rTr.class_labels = .ok dTr)
    (mDe : PromptedClassificationDataset.make rDe.source_texts
      rDe.class_labels = .ok dDe)
    (mTe : PromptedClassificationDataset.make rTe.source_texts
      rTe.class_labels = .ok dTe) :
    make_few_shot_classification_dataset env config =
      .ok (dTr, dDe, dTe, rTe.num_classes, rTe.verbalizers, rTe.template) ∧
    rTr.num_classes = rTe.num_classes ∧ rDe.num_classes = rTe.num_classes ∧
    rTr.verbalizers = rTe.verbalizers ∧ rDe.verbalizers = rTe.verbalizers ∧
    rTr.template = rTe.template ∧ rDe.template = rTe.template := by
  obtain ⟨n1, v1, t1⟩ := load_components_of_split hTr hTe
  obtain ⟨n2, v2, t2⟩ := load_components_of_split hDe hTe
  refine ⟨?_, n1, n2, v1, v2, t1, t2⟩
  unfold make_few_shot_classification_dataset
  simp only [hTr, mTr, hDe, mDe, hTe, mTe]

/-- Witness for C8 at a concrete environment and configuration. -/
theorem C8_make_dataset_splits_witness :
    make_few_shot_classification_dataset sampleEnv
        ⟨"CoLA", none, "./data", 16, "gpt2"⟩ =
      .ok (⟨["a sentence"], ["1"]⟩, ⟨["a sentence"], ["1"]⟩,
        ⟨["a sentence"], ["1"]⟩, 2, ["Ġterrible", "Ġgreat"], none) := by
  have h := (C8_make_dataset_splits sampleEnv ⟨"CoLA", none, "./data", 16, "gpt2"⟩
    ⟨["a sentence"], ["1"], 2, ["Ġterrible", "Ġgreat"], none⟩
    ⟨["a sentence"], ["1"], 2, ["Ġterrible", "Ġgreat"], none⟩
    ⟨["a sentence"], ["1"], 2, ["Ġterrible", "Ġgreat"], none⟩
    ⟨["a sentence"], ["1"]⟩ ⟨["a sentence"], ["1"]⟩ ⟨["a sentence"], ["1"]⟩
    (by rfl) (by rfl) (by rfl) (by rfl) (by rfl) (by rfl)).1
  exact h

/-- C9: the reward wrapper passes exactly, and in this order, the config's
`task_lm`, `is_mask_lm`, `compute_zscore`, `incorrect_coeff` and
`correct_coeff`, followed by its own `num_classes`, `verbalizers` and
`template` arguments, to the reward constructor; nothing else is computed. -/
theorem C9_reward_constructor_args (num_classes : Nat)
    (verbalizers : List String) (template : Option String)
    (config : RewardConfig) :
    make_prompted_classification_reward num_classes verbalizers template
        config =
      PromptedClassificationReward.mk config.task_lm config.is_mask_lm
        config.compute_zscore config.incorrect_coeff config.correct_coeff
        num_classes verbalizers template :=
  rfl

/-- C10: the dataset constructor succeeds exactly when the two lists have
the same length (failing the assertion otherwise); on success the length
is the common length and indexing pairs the i-th text with the i-th
label. -/
theorem C10_dataset_alignment (source_texts class_labels : List String) :
    ((∃ d, PromptedClassificationDataset.make source_texts class_labels =
        .ok d) ↔ source_texts.length = class_labels.length) ∧
    (source_texts.length ≠ class_labels.length →
      PromptedClassificationDataset.make source_texts class_labels =
        .error .assertionError) ∧
    ∀ d, PromptedClassificationDataset.make source_texts class_labels =
        .ok d →
      d.len = source_texts.length ∧ d.len = class_labels.length ∧
      ∀ (i : Nat) (hi : i < source_texts.length)
        (hi' : i < class_labels.length),
        d.getitem i =
          .ok ⟨source_texts.get ⟨i, hi⟩, class_labels.get ⟨i, hi'⟩⟩ := by
  refine ⟨⟨?_, ?_⟩, ?_, ?_⟩
  · rintro ⟨d, hd⟩
    unfold PromptedClassificationDataset.make at hd
    by_cases hlen : source_texts.length = class_labels.length
    · exact hlen
    · rw [if_neg hlen] at hd
      exact Except.noConfusion hd
  · intro hlen
    exact ⟨⟨source_texts, class_labels⟩,
      by unfold PromptedClassificationDataset.make; rw [if_pos hlen]⟩
  · intro hlen
    unfold PromptedClassificationDataset.make
    rw [if_neg hlen]
  · intro d hd
    unfold PromptedClassificationDataset.make at hd
    by_cases hlen : source_texts.length = class_labels.length
    case neg =>
      rw [if_neg hlen] at hd
      exact Except.noConfusion hd
    rw [if_pos hlen] at hd
    injection hd with hd
    subst hd
    refine ⟨rfl, hlen, ?_⟩
    intro i hi hi'
    have e1 : pyIndex source_texts (i : Int) =
        .ok (source_texts.get ⟨i, hi⟩) := by
      unfold pyIndex
      rw [if_pos ⟨Int.ofNat_nonneg i, by exact_mod_cast hi⟩]
      rw [Int.toNat_natCast]
      rw [List.getD_eq_getElem source_texts "" hi]
      rfl
    have e2 : pyIndex class_labels (i : Int) =
        .ok (class_labels.get ⟨i, hi'⟩) := by
      unfold pyIndex
      rw [if_pos ⟨Int.ofNat_nonneg i, by exact_mod_cast hi'⟩]
      rw [Int.toNat_natCast]
      rw [List.getD_eq_getElem class_labels "" hi']
      rfl
    unfold PromptedClassificationDataset.getitem
    simp only [e1, e2]

/-- Witness for C10: a concrete two-element dataset, its length, and the
pairing at index 1. -/
theorem C10_dataset_alignment_witness :
    PromptedClassificationDataset.len ⟨["x", "y"], ["0", "1"]⟩ = 2 ∧
    PromptedClassificationDataset.getitem ⟨["x", "y"], ["0", "1"]⟩ 1 =
      .ok ⟨"y", "1"⟩ := by
  have h := (C10_dataset_alignment ["x", "y"] ["0", "1"]).2.2
    ⟨["x", "y"], ["0", "1"]⟩ (by rfl)
  exact ⟨h.1, h.2.2 1 (by decide) (by decide)⟩
